import Mathlib

/-!
Shallow embedding of the core of the `crud-webdev` repository:
the Form Engine (`useForm` hook and its validation rule set), the
User Store (`UserContext` reducer, its actions, and the local-storage
persistence effect), and the `UserService` record-level validation.

JavaScript strings are modeled as `String`/`List Char`; JavaScript's
dynamically typed form values are modeled by `JSValue`; `undefined`/`null`
object fields are modeled by `Option`; a thrown `Error` is modeled by an
`Option String` holding its message.   Machine-generated inputs that the
source obtains from the environment (fresh ids from `generateId`,
timestamps from `new Date().toISOString()`) are passed as parameters.
-/

/-- A JavaScript runtime value, as far as the form engine needs one:
strings, booleans, numbers, arrays, `null` and `undefined`. -/
inductive JSValue where
  | str (s : String)
  | bool (b : Bool)
  | num (n : Int)
  | arr (xs : List JSValue)
  | null
  | undef

/-- JavaScript truthiness: `""`, `false`, `0`, `null` and `undefined` are
falsy; every other value (including the empty array `[]`) is truthy. -/
def truthy : JSValue → Bool
  | .str s => !s.isEmpty
  | .bool b => b
  | .num n => n != 0
  | .arr _ => true
  | .null => false
  | .undef => false

/-- `typeof value === 'string'`. -/
def JSValue.isStr : JSValue → Bool
  | .str _ => true
  | _ => false

/-- JavaScript `String.prototype.trim()`: drop whitespace from both
ends. -/
def jsTrim (l : List Char) : List Char :=
  ((l.dropWhile Char.isWhitespace).reverse.dropWhile Char.isWhitespace).reverse

/-- For a string value, whether it trims to the empty string; `false` for
every non-string value (mirrors `typeof value === 'string' && !value.trim()`). -/
def trimsEmpty : JSValue → Bool
  | .str s => (jsTrim s.toList).isEmpty
  | _ => false

namespace validationRules

/-- `validationRules.required` from the form hook: fails when the value is
falsy, or is a string that is empty after trimming whitespace. -/
def required (value : JSValue) : Option String :=
  if !truthy value || trimsEmpty value then some "Este campo é obrigatório"
  else none

/-- One character of the form-engine phone character class
`[\d\s\-\+\(\)]`: digits, whitespace, hyphen, plus, parentheses. -/
def phoneCharOk (c : Char) : Bool :=
  c.isDigit || c.isWhitespace || c = '-' || c = '+' || c = '(' || c = ')'

/-- Anchored test of the form-engine pattern `[\d\s\-\+\(\)]+`:
non-empty and every character in the class. -/
def phoneRegexTest (l : List Char) : Bool :=
  !l.isEmpty && l.all phoneCharOk

/-- `validationRules.phone` from the form hook, on the string's characters:
an empty (falsy) value passes; otherwise the value passes exactly when at
least 10 digits remain after stripping non-digits (`replace(/\D/g, '')`)
and the raw value matches the character-class pattern. -/
def phone (l : List Char) : Option String :=
  if l.isEmpty then none
  else if 10 ≤ (l.filter Char.isDigit).length && phoneRegexTest l then none
  else some "Telefone inválido"

end validationRules

/-- A character allowed by `[^\s@]`: neither whitespace nor `@`. -/
def emailChar (c : Char) : Bool :=
  !c.isWhitespace && c != '@'

/-- `UserService.isValidEmail`: anchored match of
`[^\s@]+@[^\s@]+\.[^\s@]+`.  The local part is everything before the first
`@` (the class excludes `@`, so the separating `@` of any match is the
first one); the remainder must be non-empty, free of whitespace and `@`,
and contain a `.` that is neither its first nor its last character. -/
def isValidEmail (l : List Char) : Bool :=
  let lpart := l.takeWhile (fun c => c ≠ '@')
  let rpart := (l.dropWhile (fun c => c ≠ '@')).drop 1
  !lpart.isEmpty && lpart.all emailChar &&
    !rpart.isEmpty && rpart.all emailChar &&
    ((rpart.drop 1).dropLast.contains '.')

/-- The `[0-9]{9}` tail of the store phone pattern: exactly nine digits. -/
def phoneCore (l : List Char) : Bool :=
  l.length = 9 && l.all Char.isDigit

/-- Anchored match of `(\+351)?[0-9]{9}`: either nine digits, or the
literal prefix `+351` followed by nine digits. -/
def matchesStorePhone (l : List Char) : Bool :=
  phoneCore l ||
    (match l with
     | '+' :: '3' :: '5' :: '1' :: rest => phoneCore rest
     | _ => false)

/-- `UserService.isValidPhone`: strips all whitespace
(`replace(/\s/g, '')`) and tests the anchored pattern `(\+351)?[0-9]{9}`. -/
def isValidPhone (l : List Char) : Bool :=
  matchesStorePhone (l.filter (fun c => !c.isWhitespace))

/-- A user-shaped record, as stored in the User Store and as passed to
`validateUser`.  JavaScript objects may lack any of these fields, so every
field is optional; an absent field is `none`. -/
structure UserData where
  id : Option String := none
  name : Option String := none
  email : Option String := none
  password : Option String := none
  phone : Option String := none
  userTypes : Option (List String) := none
  createdAt : Option String := none
  updatedAt : Option String := none
deriving DecidableEq

/-- `userData.field?.trim()` used as a boolean: present and non-empty
after trimming. -/
def presentStr : Option String → Bool
  | none => false
  | some s => !(jsTrim s.toList).isEmpty

/-- The field-error object built by `UserService.validateUser`: at most
one message per field, absent (`none`) when the field passed. -/
structure VErrors where
  name : Option String := none
  email : Option String := none
  phone : Option String := none
  userTypes : Option String := none
deriving DecidableEq

/-- Result shape of `UserService.validateUser`. -/
structure ValidationResult where
  isValid : Bool
  errors : VErrors
deriving DecidableEq

/-- `UserService.validateUser`: record-level validation.  `name` must be a
non-empty string after trim; `email` must be present and pass
`isValidEmail`; `phone` must be present and pass `isValidPhone`;
`userTypes` must be a non-empty array.  `isValid` holds exactly when the
error object has no keys. -/
def validateUser (d : UserData) : ValidationResult :=
  let nameErr : Option String :=
    if presentStr d.name then none else some "Nome é obrigatório"
  let emailErr : Option String :=
    match d.email with
    | none => some "Email é obrigatório"
    | some s =>
        if (jsTrim s.toList).isEmpty then some "Email é obrigatório"
        else if isValidEmail s.toList then none
        else some "Email deve ter formato válido"
  let phoneErr : Option String :=
    match d.phone with
    | none => some "Telefone é obrigatório"
    | some s =>
        if (jsTrim s.toList).isEmpty then some "Telefone é obrigatório"
        else if isValidPhone s.toList then none
        else some "Telefone deve ter formato válido"
  let typesErr : Option String :=
    match d.userTypes with
    | none => some "Selecione pelo menos um tipo de utilizador"
    | some ts =>
        if ts.isEmpty then some "Selecione pelo menos um tipo de utilizador"
        else none
  { isValid := nameErr.isNone && emailErr.isNone && phoneErr.isNone &&
      typesErr.isNone
    errors := { name := nameErr, email := emailErr, phone := phoneErr,
                userTypes := typesErr } }

/-- State managed by `userReducer` in the user context. -/
structure StoreState where
  users : List UserData
  loading : Bool
  error : Option VErrors
  currentUser : Option UserData
deriving DecidableEq

/-- The two seeded example users of `initialState`. -/
def seedUser1 : UserData :=
  { id := some "1", name := some "Augusto Chagas",
    userTypes := some ["Web Developer", "UI/UX Designer"],
    email := some "augusto.chagas@crud.com", password := some "••••••••",
    phone := some "+351 916 534 613",
    createdAt := some "2025-10-03T00:00:00.000Z" }

/-- Second seeded example user of `initialState`. -/
def seedUser2 : UserData :=
  { id := some "2", name := some "João Silva",
    userTypes := some ["Project Manager"],
    email := some "joao.silva@crud.com", password := some "••••••••",
    phone := some "+351 934 123 456",
    createdAt := some "2025-10-03T00:00:00.000Z" }

/-- `initialState` of the user context. -/
def initialState : StoreState :=
  { users := [seedUser1, seedUser2], loading := false, error := none,
    currentUser := none }

/-- `userReducer`, case `ADD_USER`: append the payload. -/
def reduceAddUser (s : StoreState) (payload : UserData) : StoreState :=
  { s with users := s.users ++ [payload], loading := false, error := none }

/-- `userReducer`, case `UPDATE_USER`: map over the collection replacing
exactly the records whose `id` equals the payload's `id`. -/
def reduceUpdateUser (s : StoreState) (payload : UserData) : StoreState :=
  { s with
      users := s.users.map (fun u => if u.id == payload.id then payload else u),
      currentUser := none, loading := false, error := none }

/-- `userReducer`, case `DELETE_USER`: keep the records whose `id` differs
from the payload id (`u.id !== action.payload`). -/
def reduceDeleteUser (s : StoreState) (payload : String) : StoreState :=
  { s with
      users := s.users.filter (fun u => u.id != some payload),
      loading := false, error := none }

/-- `userReducer`, case `SET_ERROR`. -/
def reduceSetError (s : StoreState) (payload : VErrors) : StoreState :=
  { s with error := some payload, loading := false }

/-- Result of one store action: the state after all dispatches the action
performed, plus the message of the `Error` it threw, if any. -/
structure ActionResult where
  state : StoreState
  thrown : Option String
deriving DecidableEq

/-- `actions.addUser`: validate; on failure dispatch `SET_ERROR` with the
field-error object and throw `Error('Validation failed')`; on success
dispatch `ADD_USER` with `{...userData, id: generateId(), createdAt: now}`.
The fresh id and the timestamp are parameters (the source draws them from
`UserService.generateId()` and `new Date().toISOString()`). -/
def addUser (userData : UserData) (genId currentTs : String)
    (s : StoreState) : ActionResult :=
  let validation := validateUser userData
  if !validation.isValid then
    { state := reduceSetError s validation.errors,
      thrown := some "Validation failed" }
  else
    let newUser : UserData :=
      { userData with id := some genId, createdAt := some currentTs }
    { state := reduceAddUser s newUser, thrown := none }

/-- `actions.updateUser`: validate; on failure dispatch `SET_ERROR` and
throw; on success dispatch `UPDATE_USER` with
`{...userData, id, updatedAt: now}`. -/
def updateUser (id : String) (userData : UserData) (currentTs : String)
    (s : StoreState) : ActionResult :=
  let validation := validateUser userData
  if !validation.isValid then
    { state := reduceSetError s validation.errors,
      thrown := some "Validation failed" }
  else
    let updatedUser : UserData :=
      { userData with id := some id, updatedAt := some currentTs }
    { state := reduceUpdateUser s updatedUser, thrown := none }

/-- `actions.deleteUser`: dispatch `DELETE_USER`; never throws. -/
def deleteUser (id : String) (s : StoreState) : ActionResult :=
  { state := reduceDeleteUser s id, thrown := none }

/-- The persistence effect of `UserProvider`
(`useEffect(... , [state.users])`): it writes
`JSON.stringify(state.users)` to the `'crud-users'` slot only when
`state.users.length > 0`; otherwise the slot keeps its previous content.
The slot is modeled by its deserialized content (`JSON.stringify` is
injective on these records, so "holds the serialization of `us`" is
"equals `some us`" under this abstraction). -/
def persistUsers (users : List UserData) (slot : Option (List UserData)) :
    Option (List UserData) :=
  if users.length > 0 then some users else slot

/-- Store state together with the durable `'crud-users'` slot. -/
structure AppState where
  store : StoreState
  slot : Option (List UserData)
deriving DecidableEq

/-- `deleteUser` followed by the persistence effect reacting to the
changed `users` array. -/
def deleteUserPersisted (id : String) (a : AppState) : AppState :=
  let s' := (deleteUser id a.store).state
  { store := s', slot := persistUsers s'.users a.slot }

/-- A store action followed by the persistence effect, for any action
result (create and update go through this same effect). -/
def runPersisted (act : StoreState → ActionResult) (a : AppState) : AppState :=
  let s' := (act a.store).state
  { store := s', slot := persistUsers s'.users a.slot }

/-- The form's value mapping: total over field names, `undef` when the
field is absent (JavaScript property access on a missing key). -/
abbrev Values := String → JSValue

/-- A validation rule as the form engine calls it:
`rule(value, allValues)` returning `null` (pass) or a message. -/
abbrev Rule := JSValue → Values → Option String

/-- The `validationRules` argument of `useForm`: a JavaScript object
literal mapping field names to ordered rule lists.  Object-literal keys
are unique, so lookup by first occurrence is the object's access. -/
abbrev RulesConfig := List (String × List Rule)

/-- The state held by one `useForm` instance: `values`, `errors`
(`none` covers both an absent key and an explicit `null`), `touched`
(absent keys read as `false`), and the `isSubmitting` flag. -/
structure FormState where
  values : Values
  errors : String → Option String
  touched : String → Bool
  isSubmitting : Bool

/-- `setErrors(prev => ({...prev, [name]: v}))`: pointwise update of the
error object. -/
def setErr (m : String → Option String) (k : String) (v : Option String) :
    String → Option String :=
  fun n => if n = k then v else m n

/-- The rule loop shared by `validateField` and `validateForm`: run the
rules in order and return the first failing rule's message, `none` when
all pass. -/
def firstError (rules : List Rule) (value : JSValue) (values : Values) :
    Option String :=
  match rules with
  | [] => none
  | r :: rest =>
      match r value values with
      | some e => some e
      | none => firstError rest value values

/-- `validateField(name, value)`: a field with no configured rules
(`!rules`) leaves the state untouched; otherwise `errors[name]` is set to
the first failing rule's message, or cleared (`null`) when all rules
pass.  An empty rule list is a truthy JavaScript array, so it clears. -/
def validateField (cfg : RulesConfig) (name : String) (value : JSValue)
    (st : FormState) : FormState :=
  match cfg.lookup name with
  | none => st
  | some rules =>
      { st with errors := setErr st.errors name (firstError rules value st.values) }

/-- `handleBlur`: mark the field touched, then, when the config has an
entry for it (any array is truthy), validate it against its current
value. -/
def handleBlur (cfg : RulesConfig) (name : String) (st : FormState) :
    FormState :=
  let st1 : FormState :=
    { st with touched := fun n => if n = name then true else st.touched n }
  if (cfg.lookup name).isSome then validateField cfg name (st1.values name) st1
  else st1

/-- The error object `validateForm` builds: for each rule-bearing field
its first failing message, and no entry for fields that pass or carry no
rules.  The source builds it by iterating the config's (unique) keys;
pointwise this is the same mapping. -/
def validateFormErrors (cfg : RulesConfig) (values : Values) :
    String → Option String :=
  fun n =>
    match cfg.lookup n with
    | some rules => firstError rules (values n) values
    | none => none

/-- The boolean `validateForm` returns: every rule-bearing field's rule
list passes on the current values. -/
def validateFormIsValid (cfg : RulesConfig) (values : Values) : Bool :=
  cfg.all (fun p => (firstError p.2 (values p.1) values).isNone)

/-- `getFieldProps(name)` without the two function-valued props (the
change/blur handlers are `handleChange`/`handleBlur` themselves):
`value` is `values[name] || ''`, and `error` is surfaced only for a
touched field. -/
structure FieldProps where
  name : String
  value : JSValue
  error : Option String

/-- `getFieldProps` of the form hook. -/
def getFieldProps (st : FormState) (name : String) : FieldProps :=
  { name := name
    value := if truthy (st.values name) then st.values name else .str ""
    error := if st.touched name then st.errors name else none }

/-- Everything observable about one run of the handler returned by
`handleSubmit(onSubmit)`: the final form state, whether `onSubmit` was
invoked, whether `setIsSubmitting(true)` was executed, what
`console.error` logged, and what escaped to the caller (`rethrown`). -/
structure SubmitResult (E : Type) where
  state : FormState
  invoked : Bool
  setSubmittingTrue : Bool
  logged : Option E
  rethrown : Option E

/-- The handler returned by `handleSubmit(onSubmit)`: after
`preventDefault`, it replaces `touched` with a map marking exactly the
rule-bearing fields, runs `validateForm()` (replacing the error object
wholesale), stops if invalid; otherwise sets `isSubmitting`, awaits
`onSubmit(values)` (modeled as `Except`: `.error e` is a thrown/rejected
failure), logs any failure in the `catch`, and resets `isSubmitting` in
the `finally`. -/
def handleSubmit {E : Type} (cfg : RulesConfig)
    (onSubmit : Values → Except E Unit) (st : FormState) : SubmitResult E :=
  let allTouched : String → Bool := fun n => (cfg.lookup n).isSome
  let st1 : FormState := { st with touched := allTouched }
  let st2 : FormState :=
    { st1 with errors := validateFormErrors cfg st1.values }
  if !validateFormIsValid cfg st1.values then
    { state := st2, invoked := false, setSubmittingTrue := false,
      logged := none, rethrown := none }
  else
    let st3 : FormState := { st2 with isSubmitting := true }
    match onSubmit st3.values with
    | .ok _ =>
        { state := { st3 with isSubmitting := false }, invoked := true,
          setSubmittingTrue := true, logged := none, rethrown := none }
    | .error e =>
        { state := { st3 with isSubmitting := false }, invoked := true,
          setSubmittingTrue := true, logged := some e, rethrown := none }

/-! ## Helper lemmas -/

theorem phoneCore_eq_true (l : List Char) :
    phoneCore l = true ↔ l.length = 9 ∧ ∀ c ∈ l, c.isDigit = true := by
  simp [phoneCore, List.all_eq_true]

theorem matchesStorePhone_iff (m : List Char) :
    matchesStorePhone m = true ↔
      ∃ ds : List Char, ds.length = 9 ∧ (∀ c ∈ ds, c.isDigit = true) ∧
        (m = ds ∨ m = '+' :: '3' :: '5' :: '1' :: ds) := by
  constructor
  · intro h
    unfold matchesStorePhone at h
    rw [Bool.or_eq_true] at h
    rcases h with h | h
    · obtain ⟨h1, h2⟩ := (phoneCore_eq_true m).mp h
      exact ⟨m, h1, h2, Or.inl rfl⟩
    · split at h
      · obtain ⟨h1, h2⟩ := (phoneCore_eq_true _).mp h
        exact ⟨_, h1, h2, Or.inr rfl⟩
      · exact absurd h (by simp)
  · rintro ⟨ds, h1, h2, rfl | rfl⟩
    · unfold matchesStorePhone
      rw [Bool.or_eq_true]
      exact Or.inl ((phoneCore_eq_true _).mpr ⟨h1, h2⟩)
    · unfold matchesStorePhone
      rw [Bool.or_eq_true]
      right
      exact (phoneCore_eq_true ds).mpr ⟨h1, h2⟩

theorem digit_not_ws (c : Char) (h : c.isDigit = true) :
    c.isWhitespace = false := by
  by_contra hne
  rw [Bool.not_eq_false] at hne
  simp [Char.isWhitespace] at hne
  rcases hne with ((h1 | h1) | h1) | h1 <;> subst h1 <;>
    exact absurd h (by decide)

theorem filter_isDigit_filter_ws (l : List Char) :
    (l.filter (fun c => !c.isWhitespace)).filter Char.isDigit
      = l.filter Char.isDigit := by
  induction l with
  | nil => rfl
  | cons c t ih =>
    by_cases hw : c.isWhitespace = true
    · have hd : c.isDigit = false := by
        by_contra hd
        rw [Bool.not_eq_false] at hd
        rw [digit_not_ws c hd] at hw
        exact Bool.false_ne_true hw
      simp [List.filter_cons, hw, hd, ih]
    · rw [Bool.not_eq_true] at hw
      by_cases hd : c.isDigit = true
      · simp [List.filter_cons, hw, hd, ih]
      · rw [Bool.not_eq_true] at hd
        simp [List.filter_cons, hw, hd, ih]

theorem map_fixes_of_pointwise {α : Type} {l : List α} {f : α → α}
    (h : ∀ a ∈ l, f a = a) : l.map f = l := by
  induction l with
  | nil => rfl
  | cons a t ih =>
    simp only [List.map_cons]
    rw [h a (List.mem_cons_self a t),
      ih (fun b hb => h b (List.mem_cons_of_mem a hb))]

/-! ## Claims -/

/-- **C6**: the Store's record-level phone check accepts a string exactly
when, after removing all whitespace (`\s`, which covers the claim's space
characters), what remains is an optional literal `+351` prefix followed by
exactly 9 decimal digits; values with hyphens or parentheses, and a bare
10-digit value, are rejected. -/
theorem C6_store_phone_characterization :
    (∀ l : List Char, isValidPhone l = true ↔
      ∃ ds : List Char, ds.length = 9 ∧ (∀ c ∈ ds, c.isDigit = true) ∧
        (l.filter (fun c => !c.isWhitespace) = ds ∨
         l.filter (fun c => !c.isWhitespace) = '+' :: '3' :: '5' :: '1' :: ds)) ∧
    isValidPhone "912-345-678".toList = false ∧
    isValidPhone "(912) 345 678".toList = false ∧
    isValidPhone "9123456780".toList = false := by
  refine ⟨fun l => ?_, by decide, by decide, by decide⟩
  unfold isValidPhone
  exact matchesStorePhone_iff _

/-- **C3** (counterexample): `"912345678"` is non-empty and passes the
Store's phone check (bare nine digits), yet the Form Engine's phone rule
rejects it (only nine digits remain after stripping non-digits, below the
rule's minimum of ten), so the Store's check is not contained in the Form
Engine's rule. -/
theorem C3_store_accepts_form_rejects_counterexample :
    isValidPhone "912345678".toList = true ∧
    "912345678".toList ≠ [] ∧
    validationRules.phone "912345678".toList = some "Telefone inválido" := by
  decide

/-- **C3** (amended): the containment holds exactly on the prefixed side
of the Store's pattern: every string accepted by the Store's phone check
whose whitespace-stripped form starts with `+` (hence carries the literal
`+351` prefix) is also accepted by the Form Engine's phone rule; a bare
nine-digit number is accepted by the Store but rejected by the Form
Engine, so the unrestricted containment fails. -/
theorem C3_prefixed_store_phone_passes_form_rule (l : List Char)
    (hstore : isValidPhone l = true)
    (hplus : (l.filter (fun c => !c.isWhitespace)).head? = some '+') :
    validationRules.phone l = none := by
  obtain ⟨ds, hlen, hdig, hcase⟩ := (matchesStorePhone_iff _).mp hstore
  have hstrip : l.filter (fun c => !c.isWhitespace)
      = '+' :: '3' :: '5' :: '1' :: ds := by
    rcases hcase with hc | hc
    · exfalso
      rw [hc] at hplus
      cases ds with
      | nil => simp at hplus
      | cons d ds' =>
        simp [List.head?] at hplus
        subst hplus
        exact absurd (hdig '+' (List.mem_cons_self _ _)) (by decide)
    · exact hc
  have hne : l ≠ [] := by
    intro h0
    rw [h0] at hstrip
    simp at hstrip
  have hds : ds.filter Char.isDigit = ds := List.filter_eq_self.mpr hdig
  have hdigits : l.filter Char.isDigit = '3' :: '5' :: '1' :: ds := by
    rw [← filter_isDigit_filter_ws, hstrip]
    simp +decide [List.filter_cons, hds]
  have hlen10 : 10 ≤ (l.filter Char.isDigit).length := by
    rw [hdigits]
    simp [hlen]
  have hall : ∀ c ∈ l, validationRules.phoneCharOk c = true := by
    intro c hc
    by_cases hw : c.isWhitespace = true
    · simp [validationRules.phoneCharOk, hw]
    · rw [Bool.not_eq_true] at hw
      have hcm : c ∈ l.filter (fun c => !c.isWhitespace) :=
        List.mem_filter.mpr ⟨hc, by simp [hw]⟩
      rw [hstrip] at hcm
      simp only [List.mem_cons] at hcm
      rcases hcm with rfl | rfl | rfl | rfl | hcm
      · decide
      · decide
      · decide
      · decide
      · simp [validationRules.phoneCharOk, hdig c hcm]
  have hlne : l.isEmpty = false := by
    cases l
    · exact absurd rfl hne
    · rfl
  simp [validationRules.phone, hlne, validationRules.phoneRegexTest,
    hlen10, List.all_eq_true.mpr hall]

/-- Witness for the amended C3 theorem at the seeded phone number. -/
theorem C3_prefixed_store_phone_passes_form_rule_witness :
    isValidPhone "+351 912 345 678".toList = true ∧
    validationRules.phone "+351 912 345 678".toList = none :=
  ⟨by decide, C3_prefixed_store_phone_passes_form_rule _ (by decide) (by decide)⟩

/-- **C5**: for valid data, `update(id, data)` never throws and rewrites
the collection by replacing every record whose `id` matches with the
record built wholesale from `data` — its `id` overridden by the given
one, its `updatedAt` set to the fresh timestamp, and every other field
exactly `data`'s, so fields absent from `data` are absent from the
replacement; non-matching records appear unchanged, and when no record
matches the collection is unchanged. -/
theorem C5_update_replaces_wholesale (id : String) (d : UserData)
    (ts : String) (s : StoreState)
    (hv : (validateUser d).isValid = true) :
    (updateUser id d ts s).thrown = none ∧
    (updateUser id d ts s).state.users
      = s.users.map (fun u =>
          if u.id == some id then
            { d with id := some id, updatedAt := some ts }
          else u) ∧
    ((∀ u ∈ s.users, u.id ≠ some id) →
      (updateUser id d ts s).state.users = s.users) := by
  have husers : (updateUser id d ts s).state.users
      = s.users.map (fun u =>
          if u.id == some id then
            { d with id := some id, updatedAt := some ts }
          else u) := by
    simp [updateUser, hv, reduceUpdateUser]
  refine ⟨by simp [updateUser, hv], husers, fun hno => ?_⟩
  rw [husers]
  apply map_fixes_of_pointwise
  intro u hu
  have hne : (u.id == some id) = false :=
    beq_eq_false_iff_ne.mpr (hno u hu)
  simp [hne]

/-- **C7**: `delete(id)` is idempotent on the collection, never throws,
and is a no-op on the collection when no record matches `id`. -/
theorem C7_delete_idempotent (id : String) (s : StoreState) :
    (deleteUser id (deleteUser id s).state).state.users
      = (deleteUser id s).state.users ∧
    (deleteUser id s).thrown = none ∧
    ((∀ u ∈ s.users, u.id ≠ some id) →
      (deleteUser id s).state.users = s.users) := by
  refine ⟨?_, rfl, fun hno => ?_⟩
  · show ((s.users.filter fun u => u.id != some id).filter
        fun u => u.id != some id) = s.users.filter fun u => u.id != some id
    apply List.filter_eq_self.mpr
    intro u hu
    have hpu := List.of_mem_filter hu
    exact hpu
  · show (s.users.filter fun u => u.id != some id) = s.users
    apply List.filter_eq_self.mpr
    intro u hu
    exact bne_iff_ne.mpr (hno u hu)

/-- **C9**: when `addUser` or `updateUser` is called with data failing
record-level validation, the store's `error` field is set to the
field-error mapping before the `Error('Validation failed')` is thrown,
while the users collection stays unchanged. -/
theorem C9_invalid_mutation_sets_error_field (d : UserData)
    (genId ts id : String) (s : StoreState)
    (hinv : (validateUser d).isValid = false) :
    ((addUser d genId ts s).state.error = some (validateUser d).errors ∧
     (addUser d genId ts s).state.users = s.users ∧
     (addUser d genId ts s).thrown = some "Validation failed") ∧
    ((updateUser id d ts s).state.error = some (validateUser d).errors ∧
     (updateUser id d ts s).state.users = s.users ∧
     (updateUser id d ts s).thrown = some "Validation failed") := by
  simp [addUser, updateUser, hinv, reduceSetError]

/-- The four-field-invalid record of the spec's failing-create scenario. -/
def invalidDataA : UserData :=
  { name := some "", email := some "bad", phone := some "123",
    userTypes := some [] }

/-- A record invalid only in `userTypes`. -/
def invalidDataB : UserData :=
  { name := some "Ana", email := some "ana@x.com",
    phone := some "+351911222333", userTypes := some [] }

/-- A record that passes record-level validation. -/
def validDataAna : UserData :=
  { name := some "Ana", email := some "ana@x.com",
    phone := some "+351911222333", userTypes := some ["Architect"] }

/-- Witness for C9 at a concrete invalid record and the seeded store. -/
theorem C9_invalid_mutation_sets_error_field_witness :
    (validateUser invalidDataA).isValid = false ∧
    (addUser invalidDataA "g1" "T" initialState).state.error
      = some (validateUser invalidDataA).errors ∧
    (updateUser "1" invalidDataA "T" initialState).state.users
      = initialState.users := by
  refine ⟨by decide, ?_, ?_⟩
  · exact ((C9_invalid_mutation_sets_error_field invalidDataA "g1" "T" "1"
      initialState (by decide)).1).1
  · exact ((C9_invalid_mutation_sets_error_field invalidDataA "g1" "T" "1"
      initialState (by decide)).2).2.1

/-- **C2** (counterexample): `addUser` throws the same fixed
`Error('Validation failed')` for two invalid records whose field-error
mappings differ, so the raised error does not carry the field-error
mapping (which instead lands in the store's `error` field). -/
theorem C2_create_error_payload_counterexample :
    (addUser invalidDataA "g1" "T" initialState).thrown
      = some "Validation failed" ∧
    (addUser invalidDataB "g1" "T" initialState).thrown
      = some "Validation failed" ∧
    (validateUser invalidDataA).errors ≠ (validateUser invalidDataB).errors := by
  decide

/-- **C2** (amended): for every record failing record-level validation,
`create(data)` raises an error with the fixed message
`'Validation failed'`, records the field-error mapping (one message per
failing field) in the store's `error` field rather than on the error
itself, and leaves the users collection exactly as it was. -/
theorem C2_create_invalid_amended (d : UserData) (genId ts : String)
    (s : StoreState) (hinv : (validateUser d).isValid = false) :
    (addUser d genId ts s).thrown = some "Validation failed" ∧
    (addUser d genId ts s).state.users = s.users ∧
    (addUser d genId ts s).state.error = some (validateUser d).errors := by
  simp [addUser, hinv, reduceSetError]

/-- Witness for the amended C2 theorem at the spec's invalid record. -/
theorem C2_create_invalid_amended_witness :
    (validateUser invalidDataA).isValid = false ∧
    (addUser invalidDataA "g1" "T" initialState).thrown
      = some "Validation failed" ∧
    (addUser invalidDataA "g1" "T" initialState).state.users
      = initialState.users :=
  ⟨by decide,
   (C2_create_invalid_amended invalidDataA "g1" "T" initialState (by decide)).1,
   (C2_create_invalid_amended invalidDataA "g1" "T" initialState (by decide)).2.1⟩

/-- Witness for C5: updating record `'1'` of the seeded store replaces it
wholesale (the seed's `password` and `createdAt` are dropped because the
new data lacks them) and leaves record `'2'` untouched; updating an
absent id leaves the collection unchanged. -/
theorem C5_update_replaces_wholesale_witness :
    (validateUser validDataAna).isValid = true ∧
    (updateUser "1" validDataAna "TS" initialState).state.users
      = [{ validDataAna with id := some "1", updatedAt := some "TS" },
         seedUser2] ∧
    (updateUser "9" validDataAna "TS" initialState).state.users
      = initialState.users := by
  refine ⟨by decide, ?_, ?_⟩
  · rw [(C5_update_replaces_wholesale "1" validDataAna "TS" initialState
      (by decide)).2.1]
    decide
  · exact (C5_update_replaces_wholesale "9" validDataAna "TS" initialState
      (by decide)).2.2 (by decide)

/-- Witness for C7 at the seeded store: deleting an absent id is a no-op,
and deleting `'1'` twice equals deleting it once. -/
theorem C7_delete_idempotent_witness :
    (deleteUser "999" initialState).state.users = initialState.users ∧
    (deleteUser "1" (deleteUser "1" initialState).state).state.users
      = (deleteUser "1" initialState).state.users :=
  ⟨(C7_delete_idempotent "999" initialState).2.2 (by decide),
   (C7_delete_idempotent "1" initialState).1⟩

/-- A store holding only the first seeded user. -/
def oneUserStore : StoreState :=
  { users := [seedUser1], loading := false, error := none,
    currentUser := none }

/-- **C1** (code evaluated at the failing input): the persistence effect
keeps the slot synchronized for a delete that leaves the collection
non-empty, but when a delete empties the collection the guarded write
(`if (state.users.length > 0)`) is skipped, so the slot still holds the
deleted record's serialization instead of the serialization of the
current (empty) collection. -/
theorem C1_persist_skips_empty_collection :
    (deleteUserPersisted "2" ⟨initialState, none⟩).slot = some [seedUser1] ∧
    (deleteUserPersisted "1" ⟨oneUserStore, some [seedUser1]⟩).store.users
      = [] ∧
    (deleteUserPersisted "1" ⟨oneUserStore, some [seedUser1]⟩).slot
      = some [seedUser1] ∧
    (deleteUserPersisted "1" ⟨oneUserStore, some [seedUser1]⟩).slot
      ≠ some (deleteUserPersisted "1"
          ⟨oneUserStore, some [seedUser1]⟩).store.users := by
  decide

/-- **C10**: the `required` rule returns no error for every truthy
non-string value; the empty array is truthy, so `required([])` passes and
a form-level `required` rule can never reject an empty checkbox-set
selection — only the Store's record-level `userTypes` check rejects it,
as evaluated on a record whose only flaw is the empty `userTypes`. -/
theorem C10_required_passes_truthy_nonstring :
    (∀ v : JSValue, truthy v = true → v.isStr = false →
      validationRules.required v = none) ∧
    validationRules.required (JSValue.arr []) = none ∧
    (validateUser invalidDataB).errors.userTypes
      = some "Selecione pelo menos um tipo de utilizador" ∧
    (validateUser invalidDataB).errors.name = none ∧
    (validateUser invalidDataB).isValid = false := by
  refine ⟨fun v ht hs => ?_, by decide, by decide, by decide, by decide⟩
  unfold validationRules.required
  cases v <;> simp_all [truthy, JSValue.isStr, trimsEmpty]

/-- Witness for C10 at the empty array. -/
theorem C10_required_passes_truthy_nonstring_witness :
    truthy (JSValue.arr []) = true ∧
    JSValue.isStr (JSValue.arr []) = false ∧
    validationRules.required (JSValue.arr []) = none :=
  ⟨rfl, rfl, C10_required_passes_truthy_nonstring.1 (JSValue.arr []) rfl rfl⟩

/-- **C4**: for the handler returned by the submit wrapper: when
full-form validation fails, `onSubmit` is never invoked, the submitting
flag is never set (it keeps its prior value) and nothing escapes; when
validation passes, the flag is set, `onSubmit(values)` is invoked, the
flag is false on completion whether `onSubmit` succeeds or throws, any
exception is logged, and nothing is rethrown to the caller. -/
theorem C4_submit_gating {E : Type} (cfg : RulesConfig)
    (onSubmit : Values → Except E Unit) (st : FormState) :
    (validateFormIsValid cfg st.values = false →
      (handleSubmit cfg onSubmit st).invoked = false ∧
      (handleSubmit cfg onSubmit st).setSubmittingTrue = false ∧
      (handleSubmit cfg onSubmit st).state.isSubmitting = st.isSubmitting ∧
      (handleSubmit cfg onSubmit st).rethrown = none) ∧
    (validateFormIsValid cfg st.values = true →
      (handleSubmit cfg onSubmit st).invoked = true ∧
      (handleSubmit cfg onSubmit st).setSubmittingTrue = true ∧
      (handleSubmit cfg onSubmit st).state.isSubmitting = false ∧
      (handleSubmit cfg onSubmit st).rethrown = none ∧
      (∀ e : E, onSubmit st.values = .error e →
        (handleSubmit cfg onSubmit st).logged = some e) ∧
      (onSubmit st.values = .ok () →
        (handleSubmit cfg onSubmit st).logged = none)) := by
  constructor
  · intro hinvalid
    simp [handleSubmit, hinvalid]
  · intro hvalid
    cases honsub : onSubmit st.values with
    | ok u =>
        cases u
        simp [handleSubmit, hvalid, honsub]
    | error e =>
        simp [handleSubmit, hvalid, honsub]

/-- A config whose single field always passes validation. -/
def cfgPass : RulesConfig := [("name", [fun _ _ => none])]

/-- A config whose single field carries the `required` rule. -/
def cfgReq : RulesConfig :=
  [("name", [fun v _ => validationRules.required v])]

/-- A clean form state whose every field reads as `"x"`. -/
def stFilled : FormState :=
  { values := fun _ => .str "x", errors := fun _ => none,
    touched := fun _ => false, isSubmitting := false }

/-- A clean form state whose every field reads as the empty string. -/
def stBlank : FormState :=
  { values := fun _ => .str "", errors := fun _ => none,
    touched := fun _ => false, isSubmitting := false }

/-- A submit callback that always throws. -/
def onSubmitBoom : Values → Except String Unit := fun _ => .error "boom"

/-- Witness for C4: with a passing config and a throwing callback the
handler invokes the callback, logs the failure, rethrows nothing and
resets the flag; with a failing `required` validation it neither invokes
nor sets the flag. -/
theorem C4_submit_gating_witness :
    (validateFormIsValid cfgPass stFilled.values = true ∧
     (handleSubmit cfgPass onSubmitBoom stFilled).invoked = true ∧
     (handleSubmit cfgPass onSubmitBoom stFilled).setSubmittingTrue = true ∧
     (handleSubmit cfgPass onSubmitBoom stFilled).state.isSubmitting = false ∧
     (handleSubmit cfgPass onSubmitBoom stFilled).logged = some "boom" ∧
     (handleSubmit cfgPass onSubmitBoom stFilled).rethrown = none) ∧
    (validateFormIsValid cfgReq stBlank.values = false ∧
     (handleSubmit cfgReq onSubmitBoom stBlank).invoked = false ∧
     (handleSubmit cfgReq onSubmitBoom stBlank).setSubmittingTrue = false) := by
  have hpass := (C4_submit_gating cfgPass onSubmitBoom stFilled).2 rfl
  have hfail := (C4_submit_gating cfgReq onSubmitBoom stBlank).1 rfl
  exact ⟨⟨rfl, hpass.1, hpass.2.1, hpass.2.2.1,
      hpass.2.2.2.2.1 "boom" rfl, hpass.2.2.2.1⟩,
    ⟨rfl, hfail.1, hfail.2.1⟩⟩

/-- **C8**: `getFieldProps(field).error` is `null` whenever the field is
not touched — even if an error message is recorded internally — and
equals the recorded error when the field is touched; after `handleBlur`
on a field whose configured rules fail on its current value, it equals
the first failing rule's message. -/
theorem C8_error_gated_by_touched (st : FormState) (name : String) :
    (st.touched name = false → (getFieldProps st name).error = none) ∧
    (st.touched name = true →
      (getFieldProps st name).error = st.errors name) ∧
    (∀ cfg : RulesConfig, ∀ rules : List Rule, ∀ msg : String,
      cfg.lookup name = some rules →
      firstError rules (st.values name) st.values = some msg →
      (getFieldProps (handleBlur cfg name st) name).error = some msg) := by
  refine ⟨fun h => ?_, fun h => ?_, fun cfg rules msg hlk hfe => ?_⟩
  · simp [getFieldProps, h]
  · simp [getFieldProps, h]
  · simp [handleBlur, hlk, validateField, getFieldProps, setErr, hfe]

/-- Witness for C8: the blank `name` field shows no error untouched (even
though the `required` rule would fail), and shows the `required` message
right after a blur. -/
theorem C8_error_gated_by_touched_witness :
    stBlank.touched "name" = false ∧
    (getFieldProps stBlank "name").error = none ∧
    (getFieldProps (handleBlur cfgReq "name" stBlank) "name").error
      = some "Este campo é obrigatório" :=
  ⟨rfl, (C8_error_gated_by_touched stBlank "name").1 rfl,
   (C8_error_gated_by_touched stBlank "name").2.2 cfgReq
     [fun v _ => validationRules.required v] "Este campo é obrigatório"
     rfl rfl⟩

/-- Witness for C6: the characterization evaluated at the seeded phone
number. -/
theorem C6_store_phone_characterization_witness :
    isValidPhone "+351 916 534 613".toList = true ∧
    (∃ ds : List Char, ds.length = 9 ∧ (∀ c ∈ ds, c.isDigit = true) ∧
      ("+351 916 534 613".toList.filter (fun c => !c.isWhitespace) = ds ∨
       "+351 916 534 613".toList.filter (fun c => !c.isWhitespace)
         = '+' :: '3' :: '5' :: '1' :: ds)) := by
  refine ⟨by decide, ?_⟩
  exact (C6_store_phone_characterization.1 _).mp (by decide)
